import Mathlib

/-!
Shallow embedding of the budget-period accounting and receipt-relay logic of
an expense-tracking mobile app (React Native client in
`expensesTrackerV2/app/(tabs)/ocr.tsx`, Express relay server).

Conventions of the embedding:
* JS strings are `List Char`; JS numbers that hold currency amounts are `ℚ`
  (exact arithmetic; IEEE rounding is out of scope); field-may-be-absent
  (`x || d`) is `jsOr : Option ℚ → ℚ → ℚ` mirroring JS falsiness of `0`.
* A JS `Date` is a civil date plus milliseconds past midnight, in a single
  fixed timezone (DST shifts are not modelled).  `getTime` counts
  milliseconds from 1970-01-01 (dates from 1970 on), `getDay` uses the fact
  that 1970-01-01 was a Thursday (weekday 4).
-/

namespace ExpTrack

/-! ### Decimal rendering of numbers (JS `Number.prototype.toString` for naturals) -/

/-- Little-endian decimal digits of `n`; `fuel ≥ n` makes it total and
structural (kernel-reducible). -/
def natDigitsAux : Nat → Nat → List Nat
  | 0, _ => []
  | _ + 1, 0 => []
  | fuel + 1, n + 1 => ((n + 1) % 10) :: natDigitsAux fuel ((n + 1) / 10)

/-- Value of a little-endian digit list (decoder used only in proofs). -/
def unDigits : List Nat → Nat
  | [] => 0
  | d :: ds => d + 10 * unDigits ds

/-- Digit to its ASCII character. -/
def digitChar (d : Nat) : Char := Char.ofNat (48 + d)

/-- ASCII character back to a digit (decoder used only in proofs). -/
def charToDigit (c : Char) : Nat := c.toNat - 48

/-- `n.toString()` for a natural JS number. -/
def natChars (n : Nat) : List Char :=
  if n = 0 then ['0'] else ((natDigitsAux n n).map digitChar).reverse

/-- `n.toString().padStart(2, '0')`. -/
def pad2Chars (n : Nat) : List Char :=
  let s := natChars n
  if s.length < 2 then '0' :: s else s

/-- Decode a `List Char` back to the number it renders (proofs only). -/
def decodeChars (l : List Char) : Nat := unDigits (l.reverse.map charToDigit)

/-- Decode a two-character zero-padded rendering (proofs only). -/
def decode2 : List Char → Nat
  | [a, b] => 10 * charToDigit a + charToDigit b
  | _ => 0

/-! ### The civil-date model of JS `Date` -/

/-- A JS `Date` in local time: `getFullYear`, `getMonth` (0-based),
`getDate` (1-based), and milliseconds past local midnight. -/
structure JsDate where
  year : Nat
  month : Nat
  day : Nat
  msOfDay : Nat
deriving DecidableEq, Repr

/-- Gregorian leap-year rule. -/
def isLeap (y : Nat) : Bool := (y % 4 == 0 && y % 100 != 0) || y % 400 == 0

/-- Length of 0-based month `m` of year `y`. -/
def daysInMonth (y m : Nat) : Nat :=
  match m with
  | 0 => 31 | 1 => if isLeap y then 29 else 28 | 2 => 31 | 3 => 30
  | 4 => 31 | 5 => 30 | 6 => 31 | 7 => 31 | 8 => 30 | 9 => 31
  | 10 => 30 | _ => 31

/-- Days of year `y` strictly before 0-based month `m`. -/
def daysBeforeMonth (y : Nat) : Nat → Nat
  | 0 => 0
  | m + 1 => daysBeforeMonth y m + daysInMonth y m

/-- Days in year `y`. -/
def yearLength (y : Nat) : Nat := if isLeap y then 366 else 365

/-- Days from 1970-01-01 to the start of year `y` (for `y ≥ 1970`). -/
def daysFrom1970 (y : Nat) : Nat :=
  ((List.range (y - 1970)).map (fun i => yearLength (1970 + i))).sum

/-- Day number of a date, counting 1970-01-01 as 0. -/
def daysSinceEpoch (d : JsDate) : Nat :=
  daysFrom1970 d.year + daysBeforeMonth d.year d.month + (d.day - 1)

/-- `Date.prototype.getTime`: milliseconds since the epoch. -/
def getTime (d : JsDate) : Nat := daysSinceEpoch d * 86400000 + d.msOfDay

/-- `Date.prototype.getDay`: weekday, 0 = Sunday; 1970-01-01 was a Thursday. -/
def getDay (d : JsDate) : Nat := (daysSinceEpoch d + 4) % 7

/-- `Math.ceil (a / b)` for non-negative integer `a` and positive `b`. -/
def ceilDiv (a b : Nat) : Nat := (a + b - 1) / b

/-! ### `getCurrentPeriod` (ocr.tsx) -/

/-- The `budgetType` field: `'daily' | 'weekly' | 'monthly'`. -/
inductive BudgetType where
  | daily
  | weekly
  | monthly
deriving DecidableEq, Repr

/-- `getCurrentPeriod` from ocr.tsx.  `daily` renders the ISO date
(`toISOString().split('T')[0]`, modelled timezone-free); `weekly` measures
whole days from Jan 1 by millisecond subtraction, then takes
`Math.ceil((days + startOfYear.getDay() + 1) / 7)`; `monthly` is
`` `${year}-${month+1 padded}` ``. -/
def getCurrentPeriod (type : BudgetType) (now : JsDate) : List Char :=
  match type with
  | .daily =>
      natChars now.year ++ '-' :: pad2Chars (now.month + 1) ++ '-' :: pad2Chars now.day
  | .weekly =>
      let startOfYear : JsDate := ⟨now.year, 0, 1, 0⟩
      let days := (getTime now - getTime startOfYear) / 86400000
      let weekNumber := ceilDiv (days + getDay startOfYear + 1) 7
      natChars now.year ++ '-' :: 'W' :: pad2Chars weekNumber
  | .monthly =>
      natChars now.year ++ '-' :: pad2Chars (now.month + 1)

example : getCurrentPeriod .monthly ⟨2024, 5, 15, 0⟩ = "2024-06".toList := by decide

example : getCurrentPeriod .weekly ⟨2024, 0, 1, 0⟩ = "2024-W01".toList := by decide

/-! ### Budget documents and `updateBudgetSpending` (ocr.tsx) -/

/-- JS `x || d` on a possibly-absent numeric field: `undefined`/missing and
`0` are falsy and give the default. -/
def jsOr (o : Option ℚ) (dflt : ℚ) : ℚ :=
  match o with
  | none => dflt
  | some v => if v = 0 then dflt else v

/-- A document of the `budgets` collection (fields used by ocr.tsx). -/
structure Budget where
  userId : Nat
  category : List Char
  budgetType : BudgetType
  budgetAmount : Option ℚ
  currentPeriod : List Char
  currentSpent : Option ℚ
  isActive : Bool
deriving DecidableEq, Repr

/-- The Firestore query filter of `updateBudgetSpending` and
`checkBudgetAlerts`: `userId == uid`, `category == category`,
`isActive == true`. -/
def budgetMatches (uid : Nat) (category : List Char) (b : Budget) : Bool :=
  b.userId == uid && b.category == category && b.isActive

/-- Body of the `budgetsSnapshot.docs.forEach` in `updateBudgetSpending`:
stale stored period key ⇒ replace it and reset `currentSpent` to the new
amount; same key ⇒ `currentSpent := (currentSpent || 0) + amount`. -/
def updateOneBudget (now : JsDate) (amount : ℚ) (b : Budget) : Budget :=
  let currentPeriod := getCurrentPeriod b.budgetType now
  if b.currentPeriod ≠ currentPeriod then
    { b with currentPeriod := currentPeriod, currentSpent := some amount }
  else
    { b with currentSpent := some (jsOr b.currentSpent 0 + amount) }

/-- `updateBudgetSpending` over the user's budget documents.  All staged
updates go through one Firestore `WriteBatch`; a batched write is atomic
(all staged updates apply or none), and a failed `batch.commit()` is caught
and only logged — never retried, never surfaced.  `commitFails` models the
outcome of that single commit.  `user = none` models
`auth().currentUser === null` (early return, no write). -/
def updateBudgetSpending (now : JsDate) (user : Option Nat) (budgets : List Budget)
    (category : List Char) (amount : ℚ) (commitFails : Bool) : List Budget :=
  match user with
  | none => budgets
  | some uid =>
      if commitFails then budgets
      else budgets.map fun b =>
        if budgetMatches uid category b then updateOneBudget now amount b else b

/-! ### `checkBudgetAlerts` and `checkOverspendingAlert` (ocr.tsx) -/

/-- The two alert flavours a check can signal. -/
inductive AlertSignal where
  | exceeded
  | warning
deriving DecidableEq, Repr

/-- Per-budget body of `checkBudgetAlerts`: only budgets whose stored key is
current are examined; `percentage = (currentSpent || 0) / (budgetAmount || 0) * 100`;
`≥ 100` alerts "Budget Exceeded", else `≥ 90` alerts "Budget Alert". -/
def checkBudgetAlert (now : JsDate) (b : Budget) : Option AlertSignal :=
  if b.currentPeriod = getCurrentPeriod b.budgetType now then
    let spentAmount := jsOr b.currentSpent 0
    let budgetAmount := jsOr b.budgetAmount 0
    let percentage := spentAmount / budgetAmount * 100
    if 100 ≤ percentage then some .exceeded
    else if 90 ≤ percentage then some .warning
    else none
  else none

/-- A document of the `expenses` collection (fields used by the checks). -/
structure Expense where
  userId : Nat
  amount : ℚ
  merchantName : List Char
  referenceId : List Char
  transactionDate : List Char
  description : List Char
  category : List Char
  createdAt : JsDate
deriving DecidableEq, Repr

/-- The user preferences document slice read by `checkOverspendingAlert`
(`preferences.notifications.overspendingAlerts`, possibly absent). -/
structure UserPrefs where
  overspendingAlerts : Option ℚ
deriving DecidableEq, Repr

/-- `new Date(y, m, 1)` — midnight on the first of the current month. -/
def startOfMonth (now : JsDate) : JsDate := ⟨now.year, now.month, 1, 0⟩

/-- `new Date(y, m + 1, 0, 23, 59, 59)`: day 0 of the next month normalizes
to the last day of month `m`, at 23:59:59.000. -/
def endOfMonth (now : JsDate) : JsDate :=
  ⟨now.year, now.month, daysInMonth now.year now.month, 86399000⟩

/-- `checkOverspendingAlert`: absent user document ⇒ no check; limit is
`overspendingAlerts || 1000`; sums `amount || 0` over expenses whose
`createdAt` lies in `[startOfMonth, endOfMonth]`, adds the new amount, and
alerts only when the total reaches the limit.  (`Expense.amount` is always
present in the model, so `|| 0` is the identity on it.) -/
def checkOverspendingAlert (now : JsDate) (userDoc : Option UserPrefs)
    (expenses : List Expense) (amount : ℚ) : Option AlertSignal :=
  match userDoc with
  | none => none
  | some u =>
      let overspendingLimit := jsOr u.overspendingAlerts 1000
      let monthly := expenses.filter fun e =>
        decide (getTime (startOfMonth now) ≤ getTime e.createdAt) &&
        decide (getTime e.createdAt ≤ getTime (endOfMonth now))
      let totalMonthlySpent := (monthly.map (fun e => e.amount)).sum + amount
      if overspendingLimit ≤ totalMonthlySpent then some .exceeded else none

/-! ### `saveExpense` (ocr.tsx) -/

/-- JS `String.prototype.trim`: strip whitespace from both ends. -/
def trimChars (s : List Char) : List Char :=
  ((s.dropWhile Char.isWhitespace).reverse.dropWhile Char.isWhitespace).reverse

/-- The `onChangeText` handler of the amount field:
`parseFloat(text) || 0`; an unparseable text gives `NaN` (modelled `none`),
which is falsy and coerced to `0`. -/
def parseAmountInput (p : Option ℚ) : ℚ := jsOr p 0

/-- Client-visible outcome of `saveExpense` (which alert, if any, it shows). -/
inductive SaveOutcome where
  | notLoggedIn
  | invalidAmount
  | missingMerchant
  | saved
deriving DecidableEq, Repr

/-- The document store as the client sees it: the user's expense and budget
documents. -/
structure Store where
  expenses : List Expense
  budgets : List Budget
deriving DecidableEq, Repr

/-- The editable form state behind the confirmation screen.  (The location
and `extractedText` fields of the saved document are omitted: no claim
mentions them and they influence nothing modelled here.) -/
structure ExpenseData where
  amount : ℚ
  merchantName : List Char
  referenceId : List Char
  transactionDate : List Char
  description : List Char
  category : List Char
deriving DecidableEq, Repr

/-- `saveExpense`: no authenticated user ⇒ abort before any write;
`!amount || amount <= 0` ⇒ abort; blank `merchantName.trim()` ⇒ abort;
otherwise add the expense document, then run `updateBudgetSpending`. -/
def saveExpense (now : JsDate) (user : Option Nat) (ed : ExpenseData)
    (st : Store) (commitFails : Bool) : Store × SaveOutcome :=
  match user with
  | none => (st, .notLoggedIn)
  | some uid =>
      if ed.amount = 0 ∨ ed.amount ≤ 0 then (st, .invalidAmount)
      else if trimChars ed.merchantName = [] then (st, .missingMerchant)
      else
        let doc : Expense :=
          { userId := uid
            amount := ed.amount
            merchantName := trimChars ed.merchantName
            referenceId := trimChars ed.referenceId
            transactionDate := ed.transactionDate
            description := trimChars ed.description
            category := ed.category
            createdAt := now }
        let afterAdd : Store := { st with expenses := st.expenses ++ [doc] }
        ({ afterAdd with
            budgets := updateBudgetSpending now (some uid) afterAdd.budgets
              ed.category ed.amount commitFails },
          .saved)

/-! ### The receipt relay (`POST /extract-text`, Express server) -/

/-- The structured result of `analyzeFinancialDocument`. -/
structure Analysis where
  referenceId : Option (List Char)
  date : Option (List Char)
  time : Option (List Char)
  beneficiaryName : Option (List Char)
  amount : Option (List Char)
deriving DecidableEq, Repr

/-- The all-null degradation object returned on LLM failure. -/
def nullAnalysis : Analysis := ⟨none, none, none, none, none⟩

/-- Outcome of the Groq chat-completion call inside
`analyzeFinancialDocument`: the call can throw, or return content that
`JSON.parse` either parses (`some a`) or rejects (`none`). -/
inductive LlmOutcome where
  | ok (parsed : Option Analysis)
  | failure
deriving DecidableEq, Repr

/-- `analyzeFinancialDocument`: both the call throwing and the content
failing to parse degrade to the all-null object; it never throws. -/
def analyzeFinancialDocument : LlmOutcome → Analysis
  | .ok (some a) => a
  | .ok none => nullAnalysis
  | .failure => nullAnalysis

/-- How multer disposed of the upload before the route handler runs:
`fileFilter` rejects non-PDF mimetypes, the 10 MB limit rejects oversized
files, otherwise the route sees `req.file` (or not). -/
inductive UploadOutcome where
  | accepted (filename : List Char)
  | rejectedNonPdf
  | rejectedTooLarge
  | missingFile
deriving DecidableEq, Repr

/-- Outcome of `scribe.extractText` raced against the 30 s timer. -/
inductive OcrOutcome where
  | ok (text : List Char)
  | timeout
  | failure
deriving DecidableEq, Repr

/-- The HTTP response: the 200 `{success: true, ...}` shape or an error
status with its `error` message. -/
inductive HttpResponse where
  | ok (filename : List Char) (extractedText : List Char) (analysis : Analysis)
  | err (status : Nat) (error : List Char)
deriving DecidableEq, Repr

/-- Whether a response is the success shape. -/
def HttpResponse.isSuccess : HttpResponse → Bool
  | .ok _ _ _ => true
  | .err _ _ => false

/-- `POST /extract-text` end to end: multer rejections are turned into
error responses by the error middleware (the non-PDF `fileFilter` error
falls to the generic 500 branch, the size limit to the 400 branch); a
missing file is a 400 from the handler; a rejected extraction promise
(timeout or OCR failure) is caught by the handler's `catch` and answered
with a 500, never reaching the LLM; only a successful extraction proceeds
to `analyzeFinancialDocument` and the 200 response. -/
def extractTextEndpoint (upload : UploadOutcome) (ocr : OcrOutcome)
    (llm : LlmOutcome) : HttpResponse :=
  match upload with
  | .rejectedNonPdf => .err 500 "Only PDF files are allowed!".toList
  | .rejectedTooLarge => .err 400 "File too large. Maximum size is 10MB.".toList
  | .missingFile => .err 400 "No PDF file uploaded".toList
  | .accepted filename =>
      match ocr with
      | .ok text => .ok filename text (analyzeFinancialDocument llm)
      | .timeout => .err 500 "Failed to extract text from PDF".toList
      | .failure => .err 500 "Failed to extract text from PDF".toList

/-- Modelled from the spec claim wording for the weekly key: the calendar
year joined with `Math.ceil(elapsedDays / 7)` where `elapsedDays` counts
days from January 1 of that year, "with no other input". -/
def claimWeeklyKey (d : JsDate) : List Char :=
  let days := (getTime d - getTime ⟨d.year, 0, 1, 0⟩) / 86400000
  natChars d.year ++ '-' :: 'W' :: pad2Chars (ceilDiv days 7)

/-! ### Round-trip lemmas for decimal rendering -/

theorem natDigitsAux_lt_ten :
    ∀ fuel n, ∀ d ∈ natDigitsAux fuel n, d < 10 := by
  intro fuel
  induction fuel with
  | zero =>
      intro n d hd
      simp [natDigitsAux] at hd
  | succ fuel ih =>
      intro n d hd
      match n with
      | 0 => simp [natDigitsAux] at hd
      | k + 1 =>
          simp only [natDigitsAux, List.mem_cons] at hd
          rcases hd with h | h
          · subst h
            exact Nat.mod_lt _ (by omega)
          · exact ih _ _ h

theorem unDigits_natDigitsAux :
    ∀ fuel n, n ≤ fuel → unDigits (natDigitsAux fuel n) = n := by
  intro fuel
  induction fuel with
  | zero =>
      intro n hn
      interval_cases n
      rfl
  | succ fuel ih =>
      intro n hn
      match n with
      | 0 => rfl
      | k + 1 =>
          have hdiv : (k + 1) / 10 < k + 1 := Nat.div_lt_self (by omega) (by omega)
          have : (k + 1) / 10 ≤ fuel := by omega
          simp only [natDigitsAux, unDigits, ih _ this]
          exact Nat.mod_add_div (k + 1) 10

theorem charToDigit_digitChar {d : Nat} (h : d < 10) :
    charToDigit (digitChar d) = d := by
  interval_cases d <;> rfl

theorem map_charToDigit_map_digitChar (l : List Nat) (h : ∀ d ∈ l, d < 10) :
    (l.map digitChar).map charToDigit = l := by
  induction l with
  | nil => rfl
  | cons d ds ih =>
      simp only [List.map_cons, List.cons.injEq]
      exact ⟨charToDigit_digitChar (h d (by simp)),
        ih fun x hx => h x (by simp [hx])⟩

/-- `decodeChars` undoes `natChars`, so JS decimal rendering of naturals is
injective. -/
theorem decodeChars_natChars (n : Nat) : decodeChars (natChars n) = n := by
  by_cases hn : n = 0
  · subst hn
    rfl
  · simp only [natChars, if_neg hn, decodeChars, List.reverse_reverse]
    rw [map_charToDigit_map_digitChar _ (natDigitsAux_lt_ten n n)]
    exact unDigits_natDigitsAux n n le_rfl

theorem natChars_injective : Function.Injective natChars :=
  Function.LeftInverse.injective decodeChars_natChars

theorem pad2Chars_length {n : Nat} (h1 : 1 ≤ n) (h2 : n ≤ 12) :
    (pad2Chars n).length = 2 := by
  interval_cases n <;> rfl

theorem decode2_pad2Chars {n : Nat} (h1 : 1 ≤ n) (h2 : n ≤ 12) :
    decode2 (pad2Chars n) = n := by
  interval_cases n <;> rfl

/-! ### Claim theorems -/

/-- C8: for any two dates with valid month fields, the monthly period keys
`getCurrentPeriod 'monthly'` coincide exactly when the dates fall in the
same calendar month of the same calendar year. -/
theorem monthlyKey_eq_iff (d1 d2 : JsDate) (h1 : d1.month < 12) (h2 : d2.month < 12) :
    getCurrentPeriod .monthly d1 = getCurrentPeriod .monthly d2 ↔
      d1.year = d2.year ∧ d1.month = d2.month := by
  constructor
  · intro h
    simp only [getCurrentPeriod] at h
    have l1 : (pad2Chars (d1.month + 1)).length = 2 :=
      pad2Chars_length (by omega) (by omega)
    have l2 : (pad2Chars (d2.month + 1)).length = 2 :=
      pad2Chars_length (by omega) (by omega)
    have hlen : ('-' :: pad2Chars (d1.month + 1)).length =
        ('-' :: pad2Chars (d2.month + 1)).length := by
      simp [l1, l2]
    obtain ⟨hy, hm⟩ := List.append_inj' h hlen
    refine ⟨natChars_injective hy, ?_⟩
    have hm2 : pad2Chars (d1.month + 1) = pad2Chars (d2.month + 1) :=
      (List.cons.injEq _ _ _ _ ▸ hm).2
    have hdec := congrArg decode2 hm2
    rw [decode2_pad2Chars (by omega) (by omega),
      decode2_pad2Chars (by omega) (by omega)] at hdec
    omega
  · rintro ⟨hy, hm⟩
    simp [getCurrentPeriod, hy, hm]

/-- Witness for C8 at two concrete May 2024 dates. -/
theorem monthlyKey_eq_iff_witness :
    (⟨2024, 4, 10, 0⟩ : JsDate).month < 12 ∧
    (getCurrentPeriod .monthly ⟨2024, 4, 10, 0⟩ =
        getCurrentPeriod .monthly ⟨2024, 4, 27, 3600000⟩ ↔
      (⟨2024, 4, 10, 0⟩ : JsDate).year = (⟨2024, 4, 27, 3600000⟩ : JsDate).year ∧
      (⟨2024, 4, 10, 0⟩ : JsDate).month = (⟨2024, 4, 27, 3600000⟩ : JsDate).month) :=
  ⟨by decide, monthlyKey_eq_iff _ _ (by decide) (by decide)⟩

/-- C9 counterexample: at January 1 2024 the code's weekly key is
`2024-W01`, while the claimed formula — elapsed days from January 1
divided by 7 and rounded up, with no other input — yields `2024-W00`. -/
theorem weeklyKey_cex :
    getCurrentPeriod .weekly ⟨2024, 0, 1, 0⟩ ≠ claimWeeklyKey ⟨2024, 0, 1, 0⟩ := by
  decide

/-- C9 (amended): the weekly key joins the calendar year with
`ceil((elapsedDays + weekday(Jan 1) + 1) / 7)`: the weekday of January 1
of the year (0 = Sunday) enters the computation in addition to the count
of elapsed days. -/
theorem weeklyKey_formula (d : JsDate) (hms : d.msOfDay < 86400000) :
    getCurrentPeriod .weekly d =
      natChars d.year ++ '-' :: 'W' ::
        pad2Chars (ceilDiv ((daysBeforeMonth d.year d.month + (d.day - 1))
          + (daysFrom1970 d.year + 4) % 7 + 1) 7) := by
  have hstart : getTime ⟨d.year, 0, 1, 0⟩ = daysFrom1970 d.year * 86400000 := by
    simp [getTime, daysSinceEpoch, daysBeforeMonth]
  have hd : getTime d = daysFrom1970 d.year * 86400000 +
      ((daysBeforeMonth d.year d.month + (d.day - 1)) * 86400000 + d.msOfDay) := by
    simp only [getTime, daysSinceEpoch]
    ring
  have hsub : getTime d - getTime ⟨d.year, 0, 1, 0⟩ =
      (daysBeforeMonth d.year d.month + (d.day - 1)) * 86400000 + d.msOfDay := by
    rw [hd, hstart, Nat.add_sub_cancel_left]
  have hdays : (getTime d - getTime ⟨d.year, 0, 1, 0⟩) / 86400000 =
      daysBeforeMonth d.year d.month + (d.day - 1) := by
    rw [hsub, Nat.mul_comm, Nat.mul_add_div (by omega), Nat.div_eq_of_lt hms,
      Nat.add_zero]
  have hday : getDay ⟨d.year, 0, 1, 0⟩ = (daysFrom1970 d.year + 4) % 7 := by
    simp [getDay, daysSinceEpoch, daysBeforeMonth]
  simp only [getCurrentPeriod, hdays, hday]

/-- Witness for C9's amended formula at January 15 2024, 01:00. -/
theorem weeklyKey_formula_witness :
    getCurrentPeriod .weekly ⟨2024, 0, 15, 3600000⟩ =
      natChars 2024 ++ '-' :: 'W' ::
        pad2Chars (ceilDiv ((daysBeforeMonth 2024 0 + (15 - 1))
          + (daysFrom1970 2024 + 4) % 7 + 1) 7) :=
  weeklyKey_formula ⟨2024, 0, 15, 3600000⟩ (by decide)

/-- C1: recording an expense against an active budget of the same category
whose stored period key is stale replaces the key with the current one and
resets the accumulator to exactly the new amount, whatever it held before. -/
theorem expense_resets_stale_period (now : JsDate) (uid : Nat)
    (budgets : List Budget) (category : List Char) (amount : ℚ) (i : Nat)
    (b : Budget) (hb : budgets[i]? = some b) (hact : b.isActive = true)
    (hcat : b.category = category) (huid : b.userId = uid)
    (hper : b.currentPeriod ≠ getCurrentPeriod b.budgetType now) :
    (updateBudgetSpending now (some uid) budgets category amount false)[i]? =
      some { b with currentPeriod := getCurrentPeriod b.budgetType now,
                    currentSpent := some amount } := by
  have hmatch : budgetMatches uid category b = true := by
    simp [budgetMatches, hact, hcat, huid]
  simp only [updateBudgetSpending, Bool.false_eq_true, if_false,
    List.getElem?_map, hb, Option.map_some', hmatch, if_true,
    updateOneBudget, if_pos hper]

/-- Witness for C1: a monthly budget stored on May 2024 receiving a June
2024 expense of 30 resets to 30 despite a prior accumulator of 55. -/
theorem expense_resets_stale_period_witness :
    (updateBudgetSpending ⟨2024, 5, 15, 0⟩ (some 7)
        [{ userId := 7, category := "food-dining".toList, budgetType := .monthly,
           budgetAmount := some 100, currentPeriod := "2024-05".toList,
           currentSpent := some 55, isActive := true }]
        "food-dining".toList 30 false)[0]? =
      some { userId := 7, category := "food-dining".toList, budgetType := .monthly,
             budgetAmount := some 100,
             currentPeriod := getCurrentPeriod .monthly ⟨2024, 5, 15, 0⟩,
             currentSpent := some 30, isActive := true } :=
  expense_resets_stale_period ⟨2024, 5, 15, 0⟩ 7 _ _ 30 0
    { userId := 7, category := "food-dining".toList, budgetType := .monthly,
      budgetAmount := some 100, currentPeriod := "2024-05".toList,
      currentSpent := some 55, isActive := true } rfl rfl rfl rfl (by decide)

/-- C2: recording an expense against an active budget of the same category
whose stored period key is current adds the amount to the accumulator and
leaves the stored key unchanged. -/
theorem expense_accumulates_same_period (now : JsDate) (uid : Nat)
    (budgets : List Budget) (category : List Char) (amount : ℚ) (i : Nat)
    (b : Budget) (s : ℚ) (hb : budgets[i]? = some b) (hact : b.isActive = true)
    (hcat : b.category = category) (huid : b.userId = uid)
    (hper : b.currentPeriod = getCurrentPeriod b.budgetType now)
    (hs : b.currentSpent = some s) :
    (updateBudgetSpending now (some uid) budgets category amount false)[i]? =
      some { b with currentSpent := some (s + amount) } := by
  have hmatch : budgetMatches uid category b = true := by
    simp [budgetMatches, hact, hcat, huid]
  simp only [updateBudgetSpending, Bool.false_eq_true, if_false,
    List.getElem?_map, hb, Option.map_some', hmatch, if_true,
    updateOneBudget, ne_eq, hper, not_true_eq_false, if_false, hs]
  rcases eq_or_ne s 0 with h0 | h0 <;> simp [jsOr, h0]

/-- Witness for C2: a monthly budget current for June 2024 with accumulator
85 receiving 10 moves to 95 with the key unchanged. -/
theorem expense_accumulates_same_period_witness :
    (updateBudgetSpending ⟨2024, 5, 15, 0⟩ (some 7)
        [{ userId := 7, category := "food-dining".toList, budgetType := .monthly,
           budgetAmount := some 100, currentPeriod := "2024-06".toList,
           currentSpent := some 85, isActive := true }]
        "food-dining".toList 10 false)[0]? =
      some { userId := 7, category := "food-dining".toList, budgetType := .monthly,
             budgetAmount := some 100, currentPeriod := "2024-06".toList,
             currentSpent := some (85 + 10), isActive := true } :=
  expense_accumulates_same_period ⟨2024, 5, 15, 0⟩ 7 _ _ 10 0
    { userId := 7, category := "food-dining".toList, budgetType := .monthly,
      budgetAmount := some 100, currentPeriod := "2024-06".toList,
      currentSpent := some 85, isActive := true } 85 rfl rfl rfl rfl (by decide)
    rfl

/-- C3: for a budget whose stored key is current and whose budget amount is
positive, the alert check signals exceeded exactly when the spend ratio is
at least 1, warning exactly when the ratio lies in `[9/10, 1)`, and nothing
exactly when it is below `9/10`. -/
theorem budget_alert_thresholds (now : JsDate) (b : Budget) (q : ℚ)
    (hper : b.currentPeriod = getCurrentPeriod b.budgetType now)
    (hq : b.budgetAmount = some q) (hq0 : 0 < q) :
    (checkBudgetAlert now b = some .exceeded ↔ 1 ≤ jsOr b.currentSpent 0 / q) ∧
    (checkBudgetAlert now b = some .warning ↔
      9 / 10 ≤ jsOr b.currentSpent 0 / q ∧ jsOr b.currentSpent 0 / q < 1) ∧
    (checkBudgetAlert now b = none ↔ jsOr b.currentSpent 0 / q < 9 / 10) := by
  have hAmt : jsOr b.budgetAmount 0 = q := by
    simp [jsOr, hq, if_neg (ne_of_gt hq0)]
  set r : ℚ := jsOr b.currentSpent 0 / q with hr
  simp only [checkBudgetAlert, if_pos hper, hAmt, ← hr]
  split_ifs with h1 h2
  · refine ⟨⟨fun _ => by linarith, fun _ => rfl⟩, ⟨fun h => ?_, fun h => ?_⟩,
      ⟨fun h => ?_, fun h => ?_⟩⟩
    · simp at h
    · linarith [h.2]
    · simp at h
    · linarith
  · refine ⟨⟨fun h => ?_, fun h => ?_⟩, ⟨fun _ => ⟨by linarith, by linarith⟩,
      fun _ => rfl⟩, ⟨fun h => ?_, fun h => ?_⟩⟩
    · simp at h
    · linarith
    · simp at h
    · linarith
  · refine ⟨⟨fun h => ?_, fun h => ?_⟩, ⟨fun h => ?_, fun h => ?_⟩,
      ⟨fun _ => by linarith, fun _ => rfl⟩⟩
    · simp at h
    · linarith
    · simp at h
    · linarith [h.1]

/-- Witness for C3: a June 2024 monthly budget of 100 with accumulator 95
(95%) signals a warning. -/
theorem budget_alert_thresholds_witness :
    checkBudgetAlert ⟨2024, 5, 15, 0⟩
      { userId := 7, category := "food-dining".toList, budgetType := .monthly,
        budgetAmount := some 100, currentPeriod := "2024-06".toList,
        currentSpent := some 95, isActive := true } = some .warning :=
  ((budget_alert_thresholds ⟨2024, 5, 15, 0⟩ _ 100 (by decide) rfl
      (by norm_num)).2.1).mpr (by norm_num [jsOr])

/-- C4 counterexample: with a threshold of 100 and the month total at
exactly 90 — 90% of the threshold — the code signals nothing, though the
claim requires a warning signal at or above 90%. -/
theorem overspending_no_warning_cex :
    checkOverspendingAlert ⟨2024, 5, 15, 0⟩ (some ⟨some 100⟩) [] 90 = none ∧
      (9 : ℚ) / 10 * 100 ≤ 90 := by
  constructor
  · norm_num [checkOverspendingAlert, jsOr]
  · norm_num

/-- C4 (amended): after recording an expense, the sum of the month's
expenses plus the new amount is compared against the single threshold
(`overspendingAlerts`, defaulting to 1000 when absent or zero); an
exceeded signal is raised exactly at or above 100% of the threshold, and
no warning signal exists at 90% or anywhere else. -/
theorem overspending_alert_spec (now : JsDate) (u : UserPrefs)
    (expenses : List Expense) (amount : ℚ) :
    (checkOverspendingAlert now (some u) expenses amount = some .exceeded ↔
      jsOr u.overspendingAlerts 1000 ≤
        ((expenses.filter fun e =>
            decide (getTime (startOfMonth now) ≤ getTime e.createdAt) &&
            decide (getTime e.createdAt ≤ getTime (endOfMonth now))).map
          (fun e => e.amount)).sum + amount) ∧
    checkOverspendingAlert now (some u) expenses amount ≠ some .warning := by
  simp only [checkOverspendingAlert]
  split_ifs with h
  · simpa using h
  · simpa using h

/-- C5 counterexample: a PDF upload whose OCR extraction times out is
answered with a 500 error response, not a success carrying an all-null
analysis. -/
theorem relay_timeout_cex :
    extractTextEndpoint (.accepted "receipt.pdf".toList) .timeout
        (.ok (some nullAnalysis)) =
      .err 500 "Failed to extract text from PDF".toList ∧
    (extractTextEndpoint (.accepted "receipt.pdf".toList) .timeout
        (.ok (some nullAnalysis))).isSuccess = false := by
  exact ⟨rfl, rfl⟩

/-- C5 (amended): a failed LLM call and LLM output that does not parse as
JSON both degrade to a success response with the all-null analysis, but an
OCR extraction timeout is answered with a 500 error; a non-PDF upload is
rejected before any extraction is attempted (the response ignores the OCR
and LLM outcomes entirely). -/
theorem relay_error_degradation (filename text : List Char) :
    (extractTextEndpoint (.accepted filename) (.ok text) .failure =
      .ok filename text nullAnalysis) ∧
    (extractTextEndpoint (.accepted filename) (.ok text) (.ok none) =
      .ok filename text nullAnalysis) ∧
    (∀ ocr llm, extractTextEndpoint .rejectedNonPdf ocr llm =
      .err 500 "Only PDF files are allowed!".toList) ∧
    (∀ llm, extractTextEndpoint (.accepted filename) .timeout llm =
      .err 500 "Failed to extract text from PDF".toList) :=
  ⟨rfl, rfl, fun _ _ => rfl, fun _ => rfl⟩

/-- C6 counterexample: two active matching budgets are staged in one
atomic batch; when the commit fails, the second budget is left unchanged
even though its update was evaluated and would have changed it —
per-budget writes are not independent. -/
theorem budget_batch_cex :
    updateBudgetSpending ⟨2024, 5, 15, 0⟩ (some 7)
        [{ userId := 7, category := "food-dining".toList, budgetType := .monthly,
           budgetAmount := some 100, currentPeriod := "2024-06".toList,
           currentSpent := some 20, isActive := true },
         { userId := 7, category := "food-dining".toList, budgetType := .daily,
           budgetAmount := some 40, currentPeriod := "2024-06-14".toList,
           currentSpent := some 5, isActive := true }]
        "food-dining".toList 10 true =
      [{ userId := 7, category := "food-dining".toList, budgetType := .monthly,
         budgetAmount := some 100, currentPeriod := "2024-06".toList,
         currentSpent := some 20, isActive := true },
       { userId := 7, category := "food-dining".toList, budgetType := .daily,
         budgetAmount := some 40, currentPeriod := "2024-06-14".toList,
         currentSpent := some 5, isActive := true }] ∧
    updateOneBudget ⟨2024, 5, 15, 0⟩ 10
        { userId := 7, category := "food-dining".toList, budgetType := .daily,
          budgetAmount := some 40, currentPeriod := "2024-06-14".toList,
          currentSpent := some 5, isActive := true } ≠
      { userId := 7, category := "food-dining".toList, budgetType := .daily,
        budgetAmount := some 40, currentPeriod := "2024-06-14".toList,
        currentSpent := some 5, isActive := true } := by
  exact ⟨rfl, by decide⟩

/-- C6 (amended): the per-budget updates are staged independently but are
committed as one atomic Firestore batch — either the commit fails and no
budget document changes, or it succeeds and every active matching budget
is updated; the failure itself is caught and logged, never retried. -/
theorem budget_batch_all_or_nothing (now : JsDate) (uid : Nat)
    (budgets : List Budget) (category : List Char) (amount : ℚ)
    (commitFails : Bool) :
    updateBudgetSpending now (some uid) budgets category amount commitFails =
      budgets ∨
    updateBudgetSpending now (some uid) budgets category amount commitFails =
      budgets.map fun b =>
        if budgetMatches uid category b then updateOneBudget now amount b
        else b := by
  cases commitFails
  · exact Or.inr rfl
  · exact Or.inl rfl

/-- C7: with no authenticated user, `saveExpense` aborts with the login
error before any write — the store is returned untouched — and
`updateBudgetSpending` likewise touches no budget on its own guard. -/
theorem save_requires_auth (now : JsDate) (ed : ExpenseData) (st : Store)
    (commitFails : Bool) :
    saveExpense now none ed st commitFails = (st, .notLoggedIn) ∧
    ∀ budgets category amount fail,
      updateBudgetSpending now none budgets category amount fail = budgets :=
  ⟨rfl, fun _ _ _ _ => rfl⟩

/-- C10: a non-positive amount (an unparseable amount text is coerced to
0 by `parseFloat(text) || 0`) or a blank merchant name makes `saveExpense`
reject with a validation message and perform no writes at all. -/
theorem save_rejects_invalid_input (now : JsDate) (uid : Nat)
    (ed : ExpenseData) (st : Store) (commitFails : Bool)
    (h : ed.amount ≤ 0 ∨ trimChars ed.merchantName = []) :
    ((saveExpense now (some uid) ed st commitFails).1 = st ∧
      ((saveExpense now (some uid) ed st commitFails).2 = .invalidAmount ∨
       (saveExpense now (some uid) ed st commitFails).2 = .missingMerchant)) ∧
    parseAmountInput none = 0 := by
  refine ⟨?_, rfl⟩
  simp only [saveExpense]
  rcases h with h | h
  · rw [if_pos (Or.inr h)]
    exact ⟨rfl, Or.inl rfl⟩
  · by_cases ha : ed.amount = 0 ∨ ed.amount ≤ 0
    · rw [if_pos ha]
      exact ⟨rfl, Or.inl rfl⟩
    · rw [if_neg ha, if_pos h]
      exact ⟨rfl, Or.inr rfl⟩

/-- Witness for C10: a form with amount 0 (as an unparseable text coerces
to) is rejected and the empty store stays empty. -/
theorem save_rejects_invalid_input_witness :
    ((saveExpense ⟨2024, 5, 15, 0⟩ (some 7)
        { amount := 0, merchantName := "Cafe".toList, referenceId := [],
          transactionDate := [], description := [],
          category := "food-dining".toList } ⟨[], []⟩ false).1 = ⟨[], []⟩ ∧
      ((saveExpense ⟨2024, 5, 15, 0⟩ (some 7)
        { amount := 0, merchantName := "Cafe".toList, referenceId := [],
          transactionDate := [], description := [],
          category := "food-dining".toList } ⟨[], []⟩ false).2 = .invalidAmount ∨
       (saveExpense ⟨2024, 5, 15, 0⟩ (some 7)
        { amount := 0, merchantName := "Cafe".toList, referenceId := [],
          transactionDate := [], description := [],
          category := "food-dining".toList } ⟨[], []⟩ false).2 = .missingMerchant)) ∧
    parseAmountInput none = 0 :=
  save_rejects_invalid_input ⟨2024, 5, 15, 0⟩ 7 _ _ false (Or.inl le_rfl)

end ExpTrack
